import Mathlib

/-!
Verification of the kbase dashboard core (src/main.go) against its
specification.

The embedding models, from the source:
- the revision resolver of the GET "/" handler (main.go lines 123-142):
  filter index names by the fixed name prefix "kb-rev", parse the trailing
  text with Go's strconv.Atoi, sort descending by revision, and fall back
  to a single synthetic entry when nothing matched;
- the kind aggregator (lines 152-159): map term-aggregation buckets to
  (kind, count) rows, yielding the empty list when the aggregation is
  absent;
- the access-token middleware (lines 87-95) and the handler's upstream
  error propagation (lines 120-121 and 146-150), as a pure request
  pipeline parameterised by the results of the two search-engine calls.

Machine integers: Go's int is 64-bit here; strconv.Atoi rejects values
outside [-2^63, 2^63 - 1], which the model enforces explicitly on Int.

The Go code sorts with sort.Slice, an unstable but deterministic
comparison sort; the model uses Mathlib's insertionSort with the same
comparison. Every property proved below (sortedness, membership,
permutation with the filtered list, determinism) is shared by all
deterministic comparison sorts, so none of the results depend on the
choice.
-/

namespace KBase

/-- Go: `const indexPrefix = "kb-rev"` (main.go line 24). -/
def indexPrefix : String := "kb-rev"

/-- Upper bound of Go's 64-bit int, as checked by strconv.Atoi. -/
def goIntMax : Int := 2 ^ 63 - 1

/-- Lower bound of Go's 64-bit int, as checked by strconv.Atoi. -/
def goIntMin : Int := -(2 ^ 63)

/-- One step of Go strconv's digit loop: fail unless the character is an
ASCII decimal digit, otherwise accumulate base-10. -/
def stepDigit (acc : Option Nat) (c : Char) : Option Nat :=
  match acc with
  | none => none
  | some n => if '0' ≤ c ∧ c ≤ '9' then some (n * 10 + (c.toNat - '0'.toNat)) else none

/-- Parse a non-empty all-digit character list in base 10; `none` on the
empty list or on any non-digit, as in Go's strconv digit loop. -/
def parseDigits (cs : List Char) : Option Nat :=
  if cs.isEmpty then none else cs.foldl stepDigit (some 0)

/-- Go `strconv.Atoi` (equivalently ParseInt(s, 10, 0) on a 64-bit
platform): optional leading `+` or `-`, then one or more decimal digits,
value within [-2^63, 2^63 - 1]; every other string is an error, here
`none`. -/
def atoi (s : String) : Option Int :=
  match s.data with
  | [] => none
  | c :: rest =>
    let digits := if c = '-' ∨ c = '+' then rest else c :: rest
    match parseDigits digits with
    | none => none
    | some n =>
      let v : Int := if c = '-' then -(n : Int) else (n : Int)
      if goIntMin ≤ v ∧ v ≤ goIntMax then some v else none

/-- Go `strings.HasPrefix pre s` (byte-level; the fixed prefix is ASCII, so
character-level agrees). -/
def hasPre (pre s : String) : Bool := pre.data.isPrefixOf s.data

/-- Go `strings.TrimPrefix`: drop the prefix when present, else return the
string unchanged. -/
def trimPre (pre s : String) : String :=
  if hasPre pre s then ⟨s.data.drop pre.data.length⟩ else s

/-- The handler's per-row record `DataIndex` (main.go lines 105-108). -/
structure DataIndex where
  Index : String
  Rev : Int
deriving DecidableEq

/-- One loop iteration of main.go lines 123-133: skip names without the
prefix, then keep the name with its Atoi-parsed suffix when parsing
succeeds. -/
def parseIndexName (name : String) : Option DataIndex :=
  if hasPre indexPrefix name then
    match atoi (trimPre indexPrefix name) with
    | some rev => some ⟨name, rev⟩
    | none => none
  else none

/-- The ordering used by the sort at main.go lines 134-136: the comparator
`Rev i > Rev j` sorts the slice into non-strictly descending `Rev`. -/
def revDesc (a b : DataIndex) : Prop := b.Rev ≤ a.Rev

instance : DecidableRel revDesc := fun a b => Int.decLe b.Rev a.Rev

instance : IsTotal DataIndex revDesc := ⟨fun a b => (le_total a.Rev b.Rev).symm⟩

instance : IsTrans DataIndex revDesc := ⟨fun _ _ _ hab hbc => le_trans hbc hab⟩

/-- The revision resolver (main.go lines 123-142): filter and parse the
names, sort descending by revision, and if nothing matched return the one
synthetic entry `indexPrefix + "1"` with revision 1. -/
def resolve (names : List String) : List DataIndex :=
  if (names.filterMap parseIndexName).insertionSort revDesc = [] then
    [⟨indexPrefix ++ "1", 1⟩]
  else (names.filterMap parseIndexName).insertionSort revDesc

/-- A term-aggregation bucket key: an untyped scalar decoded from JSON
(string, number, or boolean). -/
inductive BucketKey where
  | str (s : String)
  | num (n : Int)
  | boolean (b : Bool)
deriving DecidableEq

/-- Go `fmt.Sprintf("%v", key)` restricted to the scalar bucket keys. -/
def renderKey : BucketKey → String
  | .str s => s
  | .num n => toString n
  | .boolean b => if b then "true" else "false"

/-- A terms-aggregation bucket: `Key interface, DocCount int64`. -/
structure Bucket where
  Key : BucketKey
  DocCount : Int
deriving DecidableEq

/-- The handler's per-row record `DataKind` (main.go lines 109-112):
`Count` is Go `int64`. -/
structure DataKind where
  Kind : String
  Count : Int
deriving DecidableEq

/-- The kind aggregator (main.go lines 152-159): when the "kinds" terms
aggregation is absent the kinds list stays empty; otherwise one row per
bucket, in bucket order, with the key rendered and the count copied. -/
def aggregate : Option (List Bucket) → List DataKind
  | none => []
  | some buckets => buckets.map fun b => ⟨renderKey b.Key, b.DocCount⟩

/-- The view model `Data` (main.go lines 113-116). -/
structure Data where
  Kinds : List DataKind
  Indices : List DataIndex
deriving DecidableEq

/-- An incoming request, reduced to what the middleware reads: the route
path and the `access_token` query parameter. -/
structure Request where
  path : String
  accessToken : String
deriving DecidableEq

/-- What a request produces: a 403 from the token gate, a 404 for an
unregistered route, a rendered view, or a propagated upstream error. -/
inductive Outcome (ε : Type) where
  | forbidden
  | notFound
  | rendered (d : Data)
  | failed (e : ε)
deriving DecidableEq

/-- The GET "/" handler body (main.go lines 104-161), parameterised by the
results of the two search-engine calls: a failed CatIndices call returns
its error at once (the search never runs), a failed Search call returns
its error, and otherwise the view is assembled from the resolver and the
aggregator. -/
def handleRoot {ε : Type} (catRes : Except ε (List String))
    (searchRes : Except ε (Option (List Bucket))) : Outcome ε :=
  match catRes with
  | .error e => .failed e
  | .ok names =>
    match searchRes with
    | .error e => .failed e
    | .ok agg => .rendered ⟨aggregate agg, resolve names⟩

/-- The request pipeline: the middleware at main.go lines 87-95 returns
403 exactly when the path differs from "/" AND the token differs from the
configured one; otherwise the root handler (the only registered route)
runs, and any other path is a 404. -/
def serveRequest {ε : Type} (envAccessToken : String) (req : Request)
    (catRes : Except ε (List String)) (searchRes : Except ε (Option (List Bucket))) :
    Outcome ε :=
  if req.path ≠ "/" ∧ req.accessToken ≠ envAccessToken then .forbidden
  else if req.path = "/" then handleRoot catRes searchRes
  else .notFound

/-- A parsed entry keeps the original name as its `Index` field. -/
theorem parseIndexName_index {name : String} {e : DataIndex}
    (h : parseIndexName name = some e) : e.Index = name := by
  unfold parseIndexName at h
  split at h
  · split at h
    · exact (Option.some.injEq _ _ ▸ h).symm ▸ rfl
    · exact absurd h (by simp)
  · exact absurd h (by simp)

/-- Every name of the input that parses contributes its entry to the
resolver's output. -/
theorem mem_resolve_of_parse {names : List String} {name : String} {e : DataIndex}
    (hmem : name ∈ names) (hp : parseIndexName name = some e) : e ∈ resolve names := by
  have hf : e ∈ names.filterMap parseIndexName := List.mem_filterMap.mpr ⟨name, hmem, hp⟩
  have hs : e ∈ (names.filterMap parseIndexName).insertionSort revDesc :=
    (List.mem_insertionSort revDesc).mpr hf
  unfold resolve
  split
  · next hnil => rw [hnil] at hs; cases hs
  · exact hs

/-- The synthetic fallback entry parses back to itself. -/
theorem parse_synthetic : parseIndexName (indexPrefix ++ "1") = some ⟨indexPrefix ++ "1", 1⟩ := by
  decide

/-- Every entry of the resolver's output is the successful parse of its
own `Index` field. -/
theorem parse_of_mem_resolve {names : List String} {e : DataIndex}
    (he : e ∈ resolve names) : parseIndexName e.Index = some e := by
  unfold resolve at he
  split at he
  · have : e = ⟨indexPrefix ++ "1", 1⟩ := List.mem_singleton.mp he
    rw [this]
    exact parse_synthetic
  · have hf : e ∈ names.filterMap parseIndexName :=
      (List.mem_insertionSort revDesc).mp he
    obtain ⟨name, _, hp⟩ := List.mem_filterMap.mp hf
    have hidx := parseIndexName_index hp
    subst hidx
    exact hp

/-- The resolver's output is sorted for the descending-revision order. -/
theorem resolve_sorted (names : List String) : (resolve names).Sorted revDesc := by
  unfold resolve
  split
  · exact List.sorted_singleton _
  · exact List.sorted_insertionSort revDesc _

/-- Claim C1: for every input list of index names and every name in it,
the resolver produces an entry for that name iff the name starts with the
prefix and the remainder parses as a base-10 signed integer (Atoi), and
every produced entry for that name is exactly the parsed pair (Index the
name itself, Rev the parsed value); names that fail are excluded with no
error channel (the resolver is a total function into lists). -/
theorem revision_resolver_membership (names : List String) (name : String)
    (hmem : name ∈ names) :
    ((∃ e ∈ resolve names, e.Index = name) ↔ (parseIndexName name).isSome) ∧
    (∀ e ∈ resolve names, e.Index = name → parseIndexName name = some e) := by
  constructor
  · constructor
    · rintro ⟨e, he, hidx⟩
      have h := parse_of_mem_resolve he
      rw [hidx] at h
      simp [h]
    · intro hsome
      obtain ⟨e, he⟩ := Option.isSome_iff_exists.mp hsome
      exact ⟨e, mem_resolve_of_parse hmem he, parseIndexName_index he⟩
  · intro e he hidx
    have h := parse_of_mem_resolve he
    rwa [hidx] at h

theorem revision_resolver_membership_witness :
    ((∃ e ∈ resolve ["kb-rev2", "other"], e.Index = "kb-rev2") ↔
      (parseIndexName "kb-rev2").isSome) ∧
    (∀ e ∈ resolve ["kb-rev2", "other"], e.Index = "kb-rev2" →
      parseIndexName "kb-rev2" = some e) :=
  revision_resolver_membership ["kb-rev2", "other"] "kb-rev2" (by decide)

/-- Claim C2: the resolver's output is sorted by revision descending: for
every adjacent pair of positions, the earlier entry's Rev is at least the
later one's (proved for every input, in particular whenever the filtered
result is non-empty). -/
theorem revision_resolver_desc (names : List String) (i : Nat)
    (h : i + 1 < (resolve names).length) :
    ((resolve names).get ⟨i + 1, h⟩).Rev ≤
      ((resolve names).get ⟨i, Nat.lt_of_succ_lt h⟩).Rev :=
  (resolve_sorted names).rel_get_of_lt (Nat.lt_succ_self i)

theorem revision_resolver_desc_witness :
    ((resolve ["kb-rev1", "kb-rev2"]).get ⟨1, by decide⟩).Rev ≤
      ((resolve ["kb-rev1", "kb-rev2"]).get ⟨0, by decide⟩).Rev :=
  revision_resolver_desc ["kb-rev1", "kb-rev2"] 0 (by decide)

/-- Claim C3: when no input name both starts with the prefix and has an
Atoi-parsable suffix, the resolver returns exactly the one synthetic entry
(prefix + "1", revision 1). -/
theorem revision_resolver_fallback (names : List String)
    (h : ∀ name ∈ names, parseIndexName name = none) :
    resolve names = [⟨indexPrefix ++ "1", 1⟩] := by
  have hf : names.filterMap parseIndexName = [] := List.filterMap_eq_nil_iff.mpr h
  unfold resolve
  rw [hf]
  simp [List.insertionSort]

theorem revision_resolver_fallback_witness :
    resolve ["foo", "kb-revX", "kb-rev"] = [⟨indexPrefix ++ "1", 1⟩] :=
  revision_resolver_fallback ["foo", "kb-revX", "kb-rev"] (by decide)

/-- Claim C4: for every input list of index names, the resolver's output
is non-empty. -/
theorem revision_resolver_nonempty (names : List String) : resolve names ≠ [] := by
  unfold resolve
  split
  · simp
  · assumption

/-- Claim C5: on a present aggregation the aggregator yields exactly one
row per input bucket, in input order, with the count copied unchanged
(both sides are the same 64-bit-ranged integer) and the kind the generic
rendering of the bucket key. -/
theorem kind_aggregator_rows (buckets : List Bucket) :
    (aggregate (some buckets)).length = buckets.length ∧
    (∀ (i : Nat) (b : Bucket), buckets[i]? = some b →
      (aggregate (some buckets))[i]? = some (⟨renderKey b.Key, b.DocCount⟩ : DataKind)) := by
  constructor
  · simp [aggregate]
  · intro i b hb
    simp [aggregate, List.getElem?_map, hb]

theorem kind_aggregator_rows_witness :
    (aggregate (some [⟨BucketKey.str "doc", 5⟩, ⟨BucketKey.str "page", 2⟩]))[1]? =
      some ⟨renderKey (BucketKey.str "page"), 2⟩ :=
  (kind_aggregator_rows [⟨BucketKey.str "doc", 5⟩, ⟨BucketKey.str "page", 2⟩]).2
    1 ⟨BucketKey.str "page", 2⟩ (by decide)

/-- Claim C6: an absent aggregation and an empty bucket list both yield
the empty row list; the aggregator is a total function with no error
outcome. -/
theorem kind_aggregator_empty :
    aggregate none = ([] : List DataKind) ∧ aggregate (some []) = [] :=
  ⟨rfl, rfl⟩

/-- Claim C7, counterexample: a request to the dashboard root "/" with a
token that does not match the configured one is NOT rejected; the handler
runs and renders a view assembled by the resolver, because the middleware
condition exempts the "/" path from the token check (main.go line 89). -/
theorem auth_root_bypass_cex :
    ("wrong" : String) ≠ "secret" ∧
    serveRequest (ε := Unit) "secret" ⟨"/", "wrong"⟩ (Except.ok ["kb-rev2"]) (Except.ok none) =
      Outcome.rendered ⟨[], [⟨"kb-rev2", 2⟩]⟩ := by
  constructor
  · decide
  · decide

/-- Claim C7, amended: for every request whose path is not "/" and whose
access_token differs from the configured token, the pipeline returns 403
regardless of the search-engine call results, so the resolver and the
aggregator are never invoked; requests to the dashboard root bypass the
token check entirely. -/
theorem auth_gate_non_root {ε : Type} (envAccessToken : String) (req : Request)
    (catRes : Except ε (List String)) (searchRes : Except ε (Option (List Bucket)))
    (hpath : req.path ≠ "/") (htok : req.accessToken ≠ envAccessToken) :
    serveRequest envAccessToken req catRes searchRes = Outcome.forbidden := by
  unfold serveRequest
  rw [if_pos ⟨hpath, htok⟩]

theorem auth_gate_non_root_witness :
    serveRequest (ε := Unit) "secret" ⟨"/other", "bad"⟩ (Except.ok []) (Except.ok none) =
      Outcome.forbidden :=
  auth_gate_non_root "secret" ⟨"/other", "bad"⟩ (Except.ok []) (Except.ok none)
    (by decide) (by decide)

/-- Claim C8: a failed index-listing call, or a failed aggregation call
after a successful listing, makes the handler return exactly that error
(propagated unchanged) and never a rendered view: assembly is aborted with
no partial result. -/
theorem upstream_error_propagation {ε : Type} (e : ε) :
    (∀ searchRes, handleRoot (Except.error e) searchRes = Outcome.failed e) ∧
    (∀ names, handleRoot (ε := ε) (Except.ok names) (Except.error e) = Outcome.failed e) ∧
    (∀ searchRes d, handleRoot (Except.error e) searchRes ≠ Outcome.rendered d) ∧
    (∀ names d, handleRoot (ε := ε) (Except.ok names) (Except.error e) ≠ Outcome.rendered d) := by
  refine ⟨fun _ => rfl, fun _ => rfl, fun s d => ?_, fun ns d => ?_⟩ <;> simp [handleRoot]

/-- Claim C9: the resolver is deterministic: it is a pure function of the
input list, so two runs on equal lists (same order) give identical
outputs, ties included. -/
theorem revision_resolver_deterministic (l₁ l₂ : List String) (h : l₁ = l₂) :
    resolve l₁ = resolve l₂ := by rw [h]

theorem revision_resolver_deterministic_witness :
    resolve ["kb-rev7", "kb-rev7"] = resolve ["kb-rev7", "kb-rev7"] :=
  revision_resolver_deterministic ["kb-rev7", "kb-rev7"] ["kb-rev7", "kb-rev7"] rfl

/-- Claim C10: the suffix parse accepts an explicit sign and leading
zeros: the distinct names kb-rev3, kb-rev+3 and kb-rev03 all produce
entries with Rev 3 in one output, and kb-rev-3 produces Rev -3. -/
theorem atoi_sign_and_zeros :
    (⟨"kb-rev3", 3⟩ ∈ resolve ["kb-rev3", "kb-rev+3", "kb-rev03", "kb-rev-3"]) ∧
    (⟨"kb-rev+3", 3⟩ ∈ resolve ["kb-rev3", "kb-rev+3", "kb-rev03", "kb-rev-3"]) ∧
    (⟨"kb-rev03", 3⟩ ∈ resolve ["kb-rev3", "kb-rev+3", "kb-rev03", "kb-rev-3"]) ∧
    (⟨"kb-rev-3", -3⟩ ∈ resolve ["kb-rev3", "kb-rev+3", "kb-rev03", "kb-rev-3"]) ∧
    ("kb-rev3" : String) ≠ "kb-rev03" := by
  refine ⟨?_, ?_, ?_, ?_, ?_⟩ <;> decide

end KBase
